import Mathlib

/-!
Verification development for the mastodon-wraps repository (src/main.js).

The file shallowly embeds the two algorithmic cores of the source:

* the statistics aggregation inside `generateWrapped` (src/main.js lines
  412-614), modelled by `generateWrappedStats` below, and
* the paginated ingestion loop inside `startImport` (src/main.js lines
  290-365), modelled by `fetchLoop` / `runImport` below.

Modelling conventions, used throughout:

* JavaScript timestamps are epoch milliseconds; `created_at` is modelled as
  a `Nat` of epoch milliseconds.  The browser's local timezone is modelled
  as UTC, so `getHours()` is `ms / 3600000 % 24` and the calendar day is
  `ms / 86400000`.  None of the verified claims depend on the particular
  fixed timezone offset.
* JavaScript numbers that can only hold naturals in the source are `Nat`.
  `Math.round(a / b)` on nonnegative values rounds half away from zero,
  i.e. half up; it is modelled exactly as `roundDiv a b = (2*a + b) / (2*b)`
  (the float computed by the source can differ from the exact rational only
  in the immediate neighbourhood of a tie; all concrete inputs used below
  are dyadic and therefore float-exact).
* `NaN` results of `0/0` or of indexing past the end of an array are
  modelled by `Option.none` in the affected fields, as is the untouched
  `Infinity` initial value of `shortestToot`.
* Strings are compared by code points, which agrees with JavaScript's
  code-unit comparison on the ASCII strings produced by `toDateString`.
-/

/-- `\w` of a JavaScript regex without the `u` flag: `[A-Za-z0-9_]`. -/
def isWordChar (c : Char) : Bool :=
  c.isAlphanum || c = '_'

/-- Drops characters up to and including the first `'>'`; `none` if there is
no `'>'`.  Helper for the tag-stripping regex `/<[^>]*>/g`. -/
def afterGt : List Char → Option (List Char)
  | [] => none
  | c :: rest => if c = '>' then some rest else afterGt rest

/-- `text.replace(/<[^>]*>/g, '')` from src/main.js line 458, with an
explicit recursion budget so that the kernel can evaluate it: every segment
from a `'<'` to the next `'>'` is removed; a `'<'` with no later `'>'` is
kept (the regex cannot match there).  Each step consumes at least one
character, so a budget of the input length (as passed by `stripTags`) never
runs out. -/
def stripTagsGo : Nat → List Char → List Char
  | _, [] => []
  | 0, cs => cs
  | fuel + 1, c :: rest =>
    if c = '<' then
      match afterGt rest with
      | some rest2 => stripTagsGo fuel rest2
      | none => c :: stripTagsGo fuel rest
    else c :: stripTagsGo fuel rest

/-- `text.replace(/<[^>]*>/g, '')` from src/main.js line 458. -/
def stripTags (cs : List Char) : List Char :=
  stripTagsGo cs.length cs

/-- The stripped plain text of a toot (src/main.js line 458). -/
def tootText (content : String) : List Char :=
  stripTags content.data

/-- `text.trim().split(/\s+/).filter(w => w.length > 0).length` from
src/main.js line 469: the number of maximal runs of non-whitespace, with
the same always-sufficient recursion budget scheme as `stripTagsGo`. -/
def countWordsGo : Nat → List Char → Nat
  | _, [] => 0
  | 0, _ => 0
  | fuel + 1, c :: rest =>
    if c.isWhitespace then countWordsGo fuel rest
    else 1 + countWordsGo fuel (rest.dropWhile (fun d => !d.isWhitespace))

/-- The word count of a stripped text (src/main.js line 469). -/
def countWords (cs : List Char) : Nat :=
  countWordsGo cs.length cs

/-- Whether a character list starts with a word character. -/
def hasWordHead : List Char → Bool
  | [] => false
  | d :: _ => isWordChar d

/-- `text.match(/@\w+/g)` match count from src/main.js line 497: each match
is an `'@'` followed by a maximal nonempty run of word characters; same
recursion budget scheme as `stripTagsGo`. -/
def countMentionsGo : Nat → List Char → Nat
  | _, [] => 0
  | 0, _ => 0
  | fuel + 1, c :: rest =>
    if c = '@' && hasWordHead rest then
      1 + countMentionsGo fuel (rest.dropWhile isWordChar)
    else countMentionsGo fuel rest

/-- The mention count of a stripped text (src/main.js line 497). -/
def countMentions (cs : List Char) : Nat :=
  countMentionsGo cs.length cs

/-- The matches of `/#(\w+)/g` from src/main.js lines 522-527, with the
captured tag already case-folded by `toLowerCase()` (line 525); same
recursion budget scheme as `stripTagsGo`. -/
def extractHashtagsGo : Nat → List Char → List String
  | _, [] => []
  | 0, _ => []
  | fuel + 1, c :: rest =>
    if c = '#' && hasWordHead rest then
      String.mk ((rest.takeWhile isWordChar).map Char.toLower)
        :: extractHashtagsGo fuel (rest.dropWhile isWordChar)
    else extractHashtagsGo fuel rest

/-- The lowercased hashtags of a stripped text, in match order
(src/main.js lines 522-527). -/
def extractHashtags (cs : List Char) : List String :=
  extractHashtagsGo cs.length cs

/-- Consumes a useless scheme `http://` or `https://` at the head of the
list, mirroring the mandatory part of the regex `/https?:\/\/[^\s]+/`. -/
def dropScheme : List Char → Option (List Char)
  | 'h' :: 't' :: 't' :: 'p' :: 's' :: ':' :: '/' :: '/' :: r => some r
  | 'h' :: 't' :: 't' :: 'p' :: ':' :: '/' :: '/' :: r => some r
  | _ => none

/-- Whether a character list starts with a non-whitespace character, i.e.
whether `[^\s]+` can match at its head. -/
def hasNonWsHead : List Char → Bool
  | [] => false
  | d :: _ => !d.isWhitespace

/-- One attempted match of `/https?:\/\/[^\s]+/` at the head of the list:
the scheme followed by at least one non-whitespace character; returns the
remainder after the maximal non-whitespace run. -/
def linkRest (l : List Char) : Option (List Char) :=
  match dropScheme l with
  | some after =>
    if hasNonWsHead after then some (after.dropWhile (fun e => !e.isWhitespace))
    else none
  | none => none

/-- `text.match(/https?:\/\/[^\s]+/g)` match count from src/main.js
line 493; same recursion budget scheme as `stripTagsGo` (every match
consumes at least one character). -/
def countLinksGo : Nat → List Char → Nat
  | _, [] => 0
  | 0, _ => 0
  | fuel + 1, c :: rest =>
    match linkRest (c :: rest) with
    | some rem => 1 + countLinksGo fuel rem
    | none => countLinksGo fuel rest

/-- The link count of a stripped text (src/main.js line 493). -/
def countLinks (cs : List Char) : Nat :=
  countLinksGo cs.length cs

/-- Civil calendar date `(year, month, day)` of a day index counted from
1970-01-01 (Howard Hinnant's `civil_from_days`, valid for all days at or
after the epoch, which is the only range the source can see). -/
def civilFromDays (days : Nat) : Nat × Nat × Nat :=
  let z := days + 719468
  let era := z / 146097
  let doe := z % 146097
  let yoe := (doe - doe / 1460 + doe / 36524 - doe / 146096) / 365
  let y := yoe + era * 400
  let doy := doe - (365 * yoe + yoe / 4 - yoe / 100)
  let mp := (5 * doy + 2) / 153
  let d := doy - (153 * mp + 2) / 5 + 1
  let m := if mp < 10 then mp + 3 else mp - 9
  (if m ≤ 2 then y + 1 else y, m, d)

/-- English three-letter weekday abbreviations used by `Date.toDateString`,
indexed with 0 = Sunday. -/
def weekdayShortNames : List String :=
  ["Sun", "Mon", "Tue", "Wed", "Thu", "Fri", "Sat"]

/-- English three-letter month abbreviations used by `Date.toDateString`. -/
def monthShortNames : List String :=
  ["Jan", "Feb", "Mar", "Apr", "May", "Jun",
   "Jul", "Aug", "Sep", "Oct", "Nov", "Dec"]

/-- German weekday names produced by
`toLocaleDateString('de-DE', { weekday: 'long' })` (src/main.js line 503),
indexed with 0 = Sunday. -/
def germanWeekdayNames : List String :=
  ["Sonntag", "Montag", "Dienstag", "Mittwoch", "Donnerstag", "Freitag", "Samstag"]

/-- German month names produced by
`toLocaleDateString('de-DE', { month: 'long' })` (src/main.js line 504). -/
def germanMonthNames : List String :=
  ["Januar", "Februar", "März", "April", "Mai", "Juni",
   "Juli", "August", "September", "Oktober", "November", "Dezember"]

/-- Weekday index of a day count from the epoch (1970-01-01 was a
Thursday), 0 = Sunday. -/
def weekdayIndex (days : Nat) : Nat :=
  (days + 4) % 7

/-- Two-digit zero padding used for the day of month in `toDateString`. -/
def pad2 (n : Nat) : String :=
  if n < 10 then "0" ++ toString n else toString n

/-- `Date.prototype.toDateString` for a day index: `"Www Mmm DD YYYY"`,
e.g. `"Mon Jan 08 2024"`.  Used by the streak computation (src/main.js
line 570). -/
def toDateString (days : Nat) : String :=
  let c := civilFromDays days
  weekdayShortNames.getD (weekdayIndex days) "" ++ " "
    ++ monthShortNames.getD (c.2.1 - 1) "" ++ " "
    ++ pad2 c.2.2 ++ " " ++ toString c.1

/-- The local (modelled UTC) hour of an epoch-millisecond timestamp,
`date.getHours()` at src/main.js line 502. -/
def msToHour (ms : Nat) : Nat :=
  ms / 3600000 % 24

/-- The local (modelled UTC) calendar-day index of an epoch-millisecond
timestamp. -/
def msToDay (ms : Nat) : Nat :=
  ms / 86400000

/-- The German weekday name of a timestamp's calendar day. -/
def germanWeekdayOf (days : Nat) : String :=
  germanWeekdayNames.getD (weekdayIndex days) ""

/-- The German month name of a timestamp's calendar day. -/
def germanMonthOf (days : Nat) : String :=
  germanMonthNames.getD ((civilFromDays days).2.1 - 1) ""

/-- Insert `x` into an already sorted list, passing over every element `y`
with `le y x`, so that `x` lands after all elements it ties with.  Together
with `stableSortBy` this is a stable sort, matching the stability of
`Array.prototype.sort`. -/
def insertSortedBy (le : α → α → Bool) (x : α) : List α → List α
  | [] => [x]
  | y :: ys => if le y x then y :: insertSortedBy le x ys else x :: y :: ys

/-- Stable insertion sort with a boolean "less or equal" comparison,
modelling `Array.prototype.sort` with a consistent comparator (sort order
plus stability determine the result uniquely, so the exact algorithm used
by the engine is irrelevant). -/
def stableSortBy (le : α → α → Bool) (l : List α) : List α :=
  l.foldl (fun acc x => insertSortedBy le x acc) []

/-- Keeps the first occurrence of every element, in order: the observable
behaviour of `[...new Set(array)]` (src/main.js line 572). -/
def uniqFirst [DecidableEq α] : List α → List α
  | [] => []
  | x :: xs => x :: (uniqFirst xs).filter (fun y => y ≠ x)

/-- `map[k] = (map[k] || 0) + 1` on a plain JavaScript object used as a
frequency map: an existing key keeps its position, a new key is appended
(insertion order). -/
def bumpCount [DecidableEq α] (m : List (α × Nat)) (k : α) : List (α × Nat) :=
  if m.any (fun e => e.1 = k) then
    m.map (fun e => if e.1 = k then (e.1, e.2 + 1) else e)
  else m ++ [(k, 1)]

/-- Lexicographic (code-point, on ASCII = code-unit) strict comparison of
character lists: the order JavaScript's `<` uses on strings. -/
def lexLtChars : List Char → List Char → Bool
  | [], [] => false
  | [], _ :: _ => true
  | _ :: _, [] => false
  | a :: as, b :: bs =>
    if a < b then true else if b < a then false else lexLtChars as bs

/-- JavaScript string comparison `a < b` (code units; our strings are
ASCII). -/
def strLtB (a b : String) : Bool :=
  lexLtChars a.data b.data

/-- The numeric value of a digit string, most significant digit first. -/
def charsToNat (cs : List Char) : Nat :=
  cs.foldl (fun n c => n * 10 + (c.toNat - '0'.toNat)) 0

/-- Parses a nonempty all-digit string to a natural number, `none`
otherwise (the behaviour of `String.toNat?`, reimplemented over the
character list so that the kernel can evaluate it). -/
def strToNat? (s : String) : Option Nat :=
  if s.data ≠ [] ∧ s.data.all Char.isDigit then some (charsToNat s.data) else none

/-- Whether a string is a canonical array-index property key in the sense
of ECMA-262 (the canonical decimal form of an integer below `2^32 - 1`).
`Object.entries` enumerates such keys first, in ascending numeric order,
before all other string keys. -/
def isArrayIndexKey (s : String) : Bool :=
  match strToNat? s with
  | some n => decide (toString n = s) && decide (n < 4294967295)
  | none => false

/-- `Object.entries` on a string-keyed JavaScript object: array-index keys
in ascending numeric order first, then the remaining keys in insertion
order. -/
def objEntries (m : List (String × Nat)) : List (String × Nat) :=
  stableSortBy (fun a b => Nat.ble ((strToNat? a.1).getD 0) ((strToNat? b.1).getD 0))
      (m.filter (fun e => isArrayIndexKey e.1))
    ++ m.filter (fun e => !isArrayIndexKey e.1)

/-- `Object.entries` on a number-keyed JavaScript object (the hour map):
every key 0..23 is an array index, so enumeration is ascending by key. -/
def objEntriesNat (m : List (Nat × Nat)) : List (Nat × Nat) :=
  stableSortBy (fun a b => Nat.ble a.1 b.1) m

/-- The comparator `(a, b) => b[1] - a[1]` of src/main.js lines 552, 557,
561 and 565 as a boolean "less or equal in descending-count order". -/
def leCountDesc (a b : α × Nat) : Bool :=
  Nat.ble b.2 a.2

/-- `Math.round(a / b)` for nonnegative values: round half up, exactly. -/
def roundDiv (a b : Nat) : Nat :=
  (2 * a + b) / (2 * b)

/-- A Mastodon status as the source uses it.  `created_at` is epoch
milliseconds (the source parses the ISO string with `new Date`);
`media_attachments` is the attachment count (the source only tests
`length > 0`); `reblog` is whether the `reblog` field is a truthy object. -/
structure Toot where
  id : String
  content : String
  created_at : Nat
  media_attachments : Nat
  in_reply_to_id : Option String
  reblog : Bool
  visibility : String
  favourites_count : Nat
  reblogs_count : Nat
deriving DecidableEq

/-- The four time-of-day bands of src/main.js lines 511-514. -/
inductive TimeBand
  | morning
  | afternoon
  | evening
  | night
deriving DecidableEq, BEq

/-- The if/else chain of src/main.js lines 511-514: morning [6,12),
afternoon [12,18), evening [18,24), else (= [0,6) for a real hour) night. -/
def bandOf (hour : Nat) : TimeBand :=
  if 6 ≤ hour ∧ hour < 12 then .morning
  else if 12 ≤ hour ∧ hour < 18 then .afternoon
  else if 18 ≤ hour ∧ hour < 24 then .evening
  else .night

/-- Number of filtered toots whose posting hour falls in band `b`. -/
def bandCount (b : TimeBand) (l : List Toot) : Nat :=
  l.countP (fun t => bandOf (msToHour t.created_at) == b)

/-- One step of the running minimum of src/main.js line 466:
`if (length < stats.shortestToot && length > 0) ...` with the initial value
`Infinity` modelled as `none`. -/
def updShortest (cur : Option Nat) (l : Nat) : Option Nat :=
  match cur with
  | none => if 0 < l then some l else none
  | some c => if l < c ∧ 0 < l then some l else some c

/-- The streak scan of src/main.js lines 574-588 over the deduplicated,
sorted day list: day difference exactly one extends the current streak,
anything else resets it to 1; the maximum is tracked. -/
def streakGo (prev : Int) : List Int → Nat → Nat → Nat
  | [], _, maxS => maxS
  | d :: rest, cur, maxS =>
    if d - prev = 1 then streakGo d rest (cur + 1) (max maxS (cur + 1))
    else streakGo d rest 1 maxS

/-- Entry point of the streak scan: the first day (if any) is the initial
"previous" day, `currentStreak` and `maxStreak` start at 1 (lines
574-575). -/
def streakLoop (ds : List Int) (cur maxS : Nat) : Nat :=
  match ds with
  | [] => maxS
  | d :: rest => streakGo d rest cur maxS

/-- The final percentage form of `timeDistribution` (src/main.js lines
544-547); `none` is the `NaN` obtained from `0/0` on an empty filtered
set. -/
structure TimeDistribution where
  morning : Option Nat
  afternoon : Option Nat
  evening : Option Nat
  night : Option Nat
deriving DecidableEq

/-- The `stats` record produced by `generateWrapped` (src/main.js lines
423-590).  `Option Nat` fields hold `none` where the source computes `NaN`
(`avgLength`, `avgWords`, `medianLength`, the percentages) or leaves the
initial `Infinity` untouched (`shortestToot`). -/
structure WrappedStats where
  totalToots : Nat
  totalRetoots : Nat
  avgLength : Option Nat
  withMedia : Nat
  topHashtags : List (String × Nat)
  replies : Nat
  mostActiveHour : Nat
  mostActiveDay : String
  longestStreak : Nat
  longestToot : Nat
  shortestToot : Option Nat
  medianLength : Option Nat
  totalWords : Nat
  avgWords : Option Nat
  timeDistribution : TimeDistribution
  totalLinks : Nat
  totalMentions : Nat
  boosts : Nat
  privateToots : Nat
  mostActiveMonth : String × Nat
  totalFavorites : Nat
  totalReblogs : Nat
deriving DecidableEq

/-- The re-toot filter of src/main.js line 421:
`allToots.filter(toot => !toot?.reblog)`. -/
def filterToots (allToots : List Toot) : List Toot :=
  allToots.filter (fun t => !t.reblog)

/-- The stripped text lengths of the filtered toots, in traversal order
(the `lengths` array of src/main.js line 453/462). -/
def tootLengths (l : List Toot) : List Nat :=
  l.map (fun t => (tootText t.content).length)

/-- The statistics computation of `generateWrapped` (src/main.js lines
418-590) as a pure function of the archived snapshot.

The maps built per toot (`hashtagMap`, `hourMap`, `dayMap`, `monthMap`) are
insertion-ordered association lists; `Object.entries` enumeration is
modelled by `objEntries`/`objEntriesNat` (array-index keys first, in
ascending numeric order — relevant for the hour map, whose keys are all
array indices, and for purely numeric hashtags), and the sort comparator
`(a, b) => b[1] - a[1]` by the stable `stableSortBy leCountDesc`.

The streak block maps each filtered toot to its `toDateString()` text and
sorts those strings lexicographically (the default, comparator-less
`Array.prototype.sort` of line 571).  `new Date(s)` on such a string
re-parses it to the local midnight of the same calendar day, so each
string carries its day index along; the day difference computed by the
source, `Math.floor((curr - prev) / 86400000)`, is exactly the difference
of the two day indices. -/
def generateWrappedStats (allToots : List Toot) : WrappedStats :=
  let filteredToots := filterToots allToots
  let total := filteredToots.length
  let lengths := tootLengths filteredToots
  let totalChars := lengths.foldl (· + ·) 0
  let totalWords := filteredToots.foldl
    (fun acc t => acc + countWords (tootText t.content)) 0
  let hashtagMap := filteredToots.foldl
    (fun m t => (extractHashtags (tootText t.content)).foldl bumpCount m) []
  let hourMap := filteredToots.foldl
    (fun m t => bumpCount m (msToHour t.created_at)) ([] : List (Nat × Nat))
  let dayMap := filteredToots.foldl
    (fun m t => bumpCount m (germanWeekdayOf (msToDay t.created_at)))
    ([] : List (String × Nat))
  let monthMap := filteredToots.foldl
    (fun m t => bumpCount m (germanMonthOf (msToDay t.created_at)))
    ([] : List (String × Nat))
  let sortedLengths := stableSortBy Nat.ble lengths
  let mid := sortedLengths.length / 2
  let dateEntries := filteredToots.map
    (fun t => (toDateString (msToDay t.created_at), (msToDay t.created_at : Int)))
  let uniqueDates := uniqFirst
    (stableSortBy (fun a b => !strLtB b.1 a.1) dateEntries)
  { totalToots := total
    totalRetoots := allToots.length - total
    avgLength := if total = 0 then none else some (roundDiv totalChars total)
    withMedia := filteredToots.countP (fun t => 0 < t.media_attachments)
    topHashtags := (stableSortBy leCountDesc (objEntries hashtagMap)).take 5
    replies := filteredToots.countP (fun t => t.in_reply_to_id.isSome)
    mostActiveHour :=
      match (stableSortBy leCountDesc (objEntriesNat hourMap)).head? with
      | some e => e.1
      | none => 12
    mostActiveDay :=
      match (stableSortBy leCountDesc dayMap).head? with
      | some e => e.1
      | none => "Montag"
    longestStreak := streakLoop (uniqueDates.map (fun e => e.2)) 1 1
    longestToot := lengths.foldl (fun acc l => if acc < l then l else acc) 0
    shortestToot := lengths.foldl updShortest none
    medianLength :=
      if sortedLengths.length % 2 = 0 then
        match sortedLengths.get? (mid - 1), sortedLengths.get? mid with
        | some a, some b => some ((a + b + 1) / 2)
        | _, _ => none
      else sortedLengths.get? mid
    totalWords := totalWords
    avgWords := if total = 0 then none else some (roundDiv totalWords total)
    timeDistribution :=
      { morning := if total = 0 then none
          else some (roundDiv (bandCount .morning filteredToots * 100) total)
        afternoon := if total = 0 then none
          else some (roundDiv (bandCount .afternoon filteredToots * 100) total)
        evening := if total = 0 then none
          else some (roundDiv (bandCount .evening filteredToots * 100) total)
        night := if total = 0 then none
          else some (roundDiv (bandCount .night filteredToots * 100) total) }
    totalLinks := filteredToots.foldl
      (fun acc t => acc + countLinks (tootText t.content)) 0
    totalMentions := filteredToots.foldl
      (fun acc t => acc + countMentions (tootText t.content)) 0
    boosts := filteredToots.countP (fun t => t.reblog)
    privateToots := filteredToots.countP
      (fun t => t.visibility == "private" || t.visibility == "direct")
    mostActiveMonth :=
      match (stableSortBy leCountDesc monthMap).head? with
      | some e => e
      | none => ("Januar", 0)
    totalFavorites := filteredToots.foldl (fun acc t => acc + t.favourites_count) 0
    totalReblogs := filteredToots.foldl (fun acc t => acc + t.reblogs_count) 0 }

/-- `page.filter(toot => new Date(toot.created_at) >= oneYearAgo)` from
src/main.js lines 325-328. -/
def filterCutoff (cutoff : Nat) (page : List Toot) : List Toot :=
  page.filter (fun t => cutoff ≤ t.created_at)

/-- The pagination loop of `startImport` (src/main.js lines 307-345).

A run's network behaviour is modelled as the list of successive page-fetch
results the server would deliver: `some page` is a successful response with
body `page`, `none` a failed / non-ok response (`if (!response.ok) throw`,
line 316).  An exhausted list behaves like a server that keeps answering
with empty pages.  The result is the accumulated `allToots` array together
with the number of pages fetched; per page the source keeps the posts with
`created_at >= cutoff`, stops if the page is empty, stops after the page if
its oldest (last) post is older than the cutoff, and otherwise continues
with `maxId` set to the oldest post's id (cursor handling is folded into
the page list). -/
def fetchLoop (cutoff : Nat) : List (Option (List Toot)) → Except String (List Toot × Nat)
  | [] => .ok ([], 1)
  | none :: _ => .error "Fehler beim Abrufen der Toots"
  | some [] :: _ => .ok ([], 1)
  | some (t :: ts) :: rest =>
    let included := filterCutoff cutoff (t :: ts)
    let oldest := (t :: ts).getLast (List.cons_ne_nil t ts)
    if oldest.created_at < cutoff then .ok (included, 1)
    else
      match fetchLoop cutoff rest with
      | .error e => .error e
      | .ok (more, n) => .ok (included ++ more, n + 1)

/-- `store.put` on the `toots` object store: an upsert keyed by `id`
(src/main.js lines 123-131 with the `keyPath: 'id'` store). -/
def upsert (store : List Toot) (t : Toot) : List Toot :=
  if store.any (fun s => s.id = t.id) then
    store.map (fun s => if s.id = t.id then t else s)
  else store ++ [t]

/-- The persistence batch of src/main.js lines 348-350: every accumulated
toot is upserted, in order, after pagination has finished. -/
def upsertAll (store : List Toot) (toots : List Toot) : List Toot :=
  toots.foldl upsert store

/-- A whole `startImport` run (src/main.js lines 290-365) against a store
snapshot: the pagination loop runs first; only if it succeeds is the
accumulated array persisted (the `for (const toot of allToots) await
saveToDb(...)` loop runs after the `while` loop, and a thrown fetch error
jumps to the `catch` block before any `saveToDb` call).  Returns the store
after the run and the surfaced error message, if any. -/
def runImport (store : List Toot) (cutoff : Nat)
    (feed : List (Option (List Toot))) : List Toot × Option String :=
  match fetchLoop cutoff feed with
  | .error e => (store, some e)
  | .ok (toots, _) => (upsertAll store toots, none)

/-- The non-terminal-page condition: the page is non-empty and its oldest
(last) post is at or after the cutoff, so the loop continues past it. -/
def pageOk (cutoff : Nat) (p : List Toot) : Prop :=
  p ≠ [] ∧ p.getLast?.all (fun t => Nat.ble cutoff t.created_at) = true

instance (cutoff : Nat) (p : List Toot) : Decidable (pageOk cutoff p) := by
  unfold pageOk
  infer_instance

/-- The successive values of `importProgress` during one run with `n`
progress-reporting (non-empty) pages: `0` at start (line 293), then
`Math.min(95, page * 10)` after each page (line 342), then `100` on
successful completion (line 354). -/
def importProgressTrace (n : Nat) (success : Bool) : List Nat :=
  0 :: ((List.range n).map (fun i => min 95 ((i + 1) * 10))
    ++ if success then [100] else [])

/-- The claim's own description of the median ("sort, then: even count →
half-up-rounded average of the two middle values; odd count → exact middle
value"), stated independently of the source, for comparison with the
`medianLength` field. -/
def medianSpec (ls : List Nat) : Nat :=
  let s := stableSortBy Nat.ble ls
  if s.length % 2 = 0 then
    (s.getD (s.length / 2 - 1) 0 + s.getD (s.length / 2) 0 + 1) / 2
  else s.getD (s.length / 2) 0

/-- The claim's own description of the longest daily streak: the longest
run of consecutive calendar days in the ascending-sorted set of distinct
post days, stated independently of the source. -/
def longestStreakSpec (days : List Nat) : Nat :=
  streakLoop ((stableSortBy Nat.ble (uniqFirst days)).map (fun d => (d : Int))) 1 1

/-- A plain public toot with the given id, body and timestamp, used as a
building block for concrete inputs. -/
def mkToot (i content : String) (created : Nat) : Toot :=
  { id := i, content := content, created_at := created, media_attachments := 0,
    in_reply_to_id := none, reblog := false, visibility := "public",
    favourites_count := 0, reblogs_count := 0 }

/-- A pure boost (`reblog` truthy), excluded by the re-toot filter. -/
def boostToot : Toot :=
  { mkToot "b1" "boosted" 0 with reblog := true }

/-- A toot posted on Sunday 2024-01-07 (day index 19729), noon. -/
def tootSun : Toot :=
  mkToot "s1" "sunday" (19729 * 86400000 + 43200000)

/-- A toot posted on Monday 2024-01-08 (day index 19730), noon. -/
def tootMon : Toot :=
  mkToot "s2" "monday" (19730 * 86400000 + 43200000)

/-- A toot whose hashtags are `#b` then `#9`: the tag `9` is an array-index
object key, so `Object.entries` enumerates it before `b`. -/
def tootB9 : Toot :=
  mkToot "h1" "#b #9" 0

/-- A toot containing `#a #a #b`. -/
def tootAAB : Toot :=
  mkToot "h2" "#a #a #b" 0

/-- A toot containing `#Foo #foo`, which case-fold to the same tag. -/
def tootFooCase : Toot :=
  mkToot "h3" "#Foo #foo" 0

/-- A toot whose stripped text has exactly `n` characters. -/
def lenToot (i : String) (n : Nat) : Toot :=
  mkToot i (String.mk (List.replicate n 'a')) 0

/-- Three toots with stripped lengths 1, 2, 3. -/
def demoMedian3 : List Toot :=
  [lenToot "m1" 1, lenToot "m2" 2, lenToot "m3" 3]

/-- Four toots with stripped lengths 1, 2, 3, 4. -/
def demoMedian4 : List Toot :=
  [lenToot "m1" 1, lenToot "m2" 2, lenToot "m3" 3, lenToot "m4" 4]

/-- A toot posted at hour `h` of 1970-01-01 (UTC model). -/
def hourToot (i : String) (h : Nat) : Toot :=
  mkToot i "x" (h * 3600000)

/-- Eight toots with 1 morning, 1 afternoon, 1 evening and 5 night posts:
the four rounded band percentages are 13, 13, 13 and 63, summing to 102. -/
def demoBands : List Toot :=
  [hourToot "t1" 6, hourToot "t2" 12, hourToot "t3" 18, hourToot "t4" 0,
   hourToot "t5" 1, hourToot "t6" 2, hourToot "t7" 3, hourToot "t8" 4]

/-- A toot whose body strips to the empty text. -/
def emptyTextToot : Toot :=
  mkToot "e1" "<p></p>" 0

/-- A toot with only a timestamp of interest, for pagination feeds. -/
def feedToot (i : String) (created : Nat) : Toot :=
  mkToot i "x" created

/-- First demo page: two toots inside the cutoff window. -/
def demoPage1 : List Toot :=
  [feedToot "p1" 300, feedToot "p2" 200]

/-- Second demo page: two toots inside the cutoff window. -/
def demoPage2 : List Toot :=
  [feedToot "p3" 150, feedToot "p4" 120]

/-- Third demo page: one toot inside the window, the oldest one outside. -/
def demoPage3 : List Toot :=
  [feedToot "p5" 110, feedToot "p6" 50]

/-- A fourth page that must never be reached. -/
def demoPage4 : List Toot :=
  [feedToot "p7" 10]

theorem length_insertSortedBy (le : α → α → Bool) (x : α) (l : List α) :
    (insertSortedBy le x l).length = l.length + 1 := by
  induction l with
  | nil => rfl
  | cons y ys ih =>
    unfold insertSortedBy
    by_cases hc : le y x = true
    · simp [hc, ih]
    · simp [hc]

theorem length_stableSortBy (le : α → α → Bool) (l : List α) :
    (stableSortBy le l).length = l.length := by
  have aux : ∀ (l : List α) (acc : List α),
      (l.foldl (fun acc x => insertSortedBy le x acc) acc).length
        = acc.length + l.length := by
    intro l
    induction l with
    | nil => intro acc; simp
    | cons x xs ih =>
      intro acc
      simp only [List.foldl_cons]
      rw [ih, length_insertSortedBy]
      simp only [List.length_cons]
      omega
  simpa using aux l []

theorem mem_insertSortedBy (le : α → α → Bool) (x a : α) (l : List α) :
    a ∈ insertSortedBy le x l ↔ a = x ∨ a ∈ l := by
  induction l with
  | nil => simp [insertSortedBy]
  | cons y ys ih =>
    unfold insertSortedBy
    by_cases hc : le y x = true
    · rw [if_pos hc]
      simp only [List.mem_cons, ih]
      tauto
    · rw [if_neg hc]
      simp only [List.mem_cons]

theorem pairwise_insertSortedBy (le : α → α → Bool)
    (htot : ∀ a b, le a b = true ∨ le b a = true)
    (htrans : ∀ a b c, le a b = true → le b c = true → le a c = true)
    (x : α) (l : List α) (h : l.Pairwise (fun a b => le a b = true)) :
    (insertSortedBy le x l).Pairwise (fun a b => le a b = true) := by
  induction l with
  | nil => simp [insertSortedBy]
  | cons y ys ih =>
    rcases List.pairwise_cons.mp h with ⟨hy, hys⟩
    unfold insertSortedBy
    by_cases hc : le y x = true
    · rw [if_pos hc]
      refine List.pairwise_cons.mpr ⟨?_, ih hys⟩
      intro a ha
      rcases (mem_insertSortedBy le x a ys).mp ha with rfl | ha
      · exact hc
      · exact hy a ha
    · rw [if_neg hc]
      have hxy : le x y = true := by
        rcases htot x y with h1 | h1
        · exact h1
        · exact absurd h1 hc
      refine List.pairwise_cons.mpr ⟨?_, h⟩
      intro a ha
      rcases List.mem_cons.mp ha with rfl | ha
      · exact hxy
      · exact htrans x y a hxy (hy a ha)

theorem pairwise_stableSortBy (le : α → α → Bool)
    (htot : ∀ a b, le a b = true ∨ le b a = true)
    (htrans : ∀ a b c, le a b = true → le b c = true → le a c = true)
    (l : List α) :
    (stableSortBy le l).Pairwise (fun a b => le a b = true) := by
  have aux : ∀ (l acc : List α), acc.Pairwise (fun a b => le a b = true) →
      (l.foldl (fun acc x => insertSortedBy le x acc) acc).Pairwise
        (fun a b => le a b = true) := by
    intro l
    induction l with
    | nil => intro acc hacc; simpa using hacc
    | cons x xs ih =>
      intro acc hacc
      simp only [List.foldl_cons]
      exact ih _ (pairwise_insertSortedBy le htot htrans x acc hacc)
  exact aux l [] List.Pairwise.nil

theorem bandCount_partition (l : List Toot) :
    bandCount .morning l + bandCount .afternoon l + bandCount .evening l
      + bandCount .night l = l.length := by
  induction l with
  | nil => rfl
  | cons t ts ih =>
    simp only [bandCount, List.countP_cons, List.length_cons] at *
    cases bandOf (msToHour t.created_at) <;> simp +decide <;> omega

theorem roundDiv_mul_bounds (c t : Nat) (ht : 0 < t) :
    2 * t * roundDiv (c * 100) t ≤ 200 * c + t
      ∧ 200 * c + t < 2 * t * roundDiv (c * 100) t + 2 * t := by
  unfold roundDiv
  have h2t : 0 < 2 * t := by omega
  have hdm := Nat.div_add_mod (2 * (c * 100) + t) (2 * t)
  have hmlt := Nat.mod_lt (2 * (c * 100) + t) h2t
  constructor
  · omega
  · omega

theorem pctSum_bounds (m a e n t : Nat) (ht : 0 < t) (hsum : m + a + e + n = t) :
    99 ≤ roundDiv (m * 100) t + roundDiv (a * 100) t + roundDiv (e * 100) t
          + roundDiv (n * 100) t
      ∧ roundDiv (m * 100) t + roundDiv (a * 100) t + roundDiv (e * 100) t
          + roundDiv (n * 100) t ≤ 102 := by
  obtain ⟨hm1, hm2⟩ := roundDiv_mul_bounds m t ht
  obtain ⟨ha1, ha2⟩ := roundDiv_mul_bounds a t ht
  obtain ⟨he1, he2⟩ := roundDiv_mul_bounds e t ht
  obtain ⟨hn1, hn2⟩ := roundDiv_mul_bounds n t ht
  set P := roundDiv (m * 100) t + roundDiv (a * 100) t + roundDiv (e * 100) t
    + roundDiv (n * 100) t with hP
  have hup : 2 * t * P ≤ 204 * t := by
    have : 2 * t * P = 2 * t * roundDiv (m * 100) t + 2 * t * roundDiv (a * 100) t
        + 2 * t * roundDiv (e * 100) t + 2 * t * roundDiv (n * 100) t := by
      rw [hP]; ring
    rw [this]
    calc 2 * t * roundDiv (m * 100) t + 2 * t * roundDiv (a * 100) t
          + 2 * t * roundDiv (e * 100) t + 2 * t * roundDiv (n * 100) t
        ≤ (200 * m + t) + (200 * a + t) + (200 * e + t) + (200 * n + t) := by
          omega
      _ = 204 * t := by omega
  have hlo : 196 * t < 2 * t * P := by
    have hx : 2 * t * P + 8 * t > (200 * m + t) + (200 * a + t) + (200 * e + t)
        + (200 * n + t) := by
      have : 2 * t * P = 2 * t * roundDiv (m * 100) t + 2 * t * roundDiv (a * 100) t
          + 2 * t * roundDiv (e * 100) t + 2 * t * roundDiv (n * 100) t := by
        rw [hP]; ring
      omega
    omega
  constructor
  · by_contra hcon
    push_neg at hcon
    have : P ≤ 98 := by omega
    have : 2 * t * P ≤ 2 * t * 98 := Nat.mul_le_mul_left _ this
    omega
  · by_contra hcon
    push_neg at hcon
    have : 103 ≤ P := by omega
    have : 2 * t * 103 ≤ 2 * t * P := Nat.mul_le_mul_left _ this
    omega

theorem foldl_updShortest_none {ls : List Nat} (h : ∀ l ∈ ls, l = 0) :
    ls.foldl updShortest none = none := by
  induction ls with
  | nil => rfl
  | cons l ls ih =>
    have hl : l = 0 := h l (List.mem_cons_self l ls)
    subst hl
    simp only [List.foldl_cons]
    have : updShortest none 0 = none := by simp [updShortest]
    rw [this]
    exact ih (fun x hx => h x (List.mem_cons_of_mem _ hx))

theorem fetchLoop_cons_cont (cutoff : Nat) (t : Toot) (ts : List Toot)
    (rest : List (Option (List Toot)))
    (hnotlt : ¬ ((t :: ts).getLast (List.cons_ne_nil t ts)).created_at < cutoff) :
    fetchLoop cutoff (some (t :: ts) :: rest) =
      match fetchLoop cutoff rest with
      | .error e => .error e
      | .ok (more, n) => .ok (filterCutoff cutoff (t :: ts) ++ more, n + 1) := by
  conv_lhs => rw [fetchLoop]
  rw [if_neg hnotlt]

theorem fetchLoop_go (cutoff : Nat) (pages : List (List Toot))
    (rest : List (Option (List Toot))) (h : ∀ p ∈ pages, pageOk cutoff p) :
    fetchLoop cutoff (pages.map some ++ rest) =
      match fetchLoop cutoff rest with
      | .error e => .error e
      | .ok (more, k) =>
        .ok (((pages.map (filterCutoff cutoff)).flatten ++ more, k + pages.length)) := by
  induction pages with
  | nil =>
    simp only [List.map_nil, List.nil_append, List.flatten_nil, List.length_nil]
    cases hr : fetchLoop cutoff rest with
    | error e => simp
    | ok pr => simp
  | cons p ps ih =>
    obtain ⟨hne, hlast⟩ := h p (List.mem_cons_self p ps)
    obtain ⟨t, ts, rfl⟩ := List.exists_cons_of_ne_nil hne
    have hget : (t :: ts).getLast? = some ((t :: ts).getLast (List.cons_ne_nil t ts)) := by
      rw [List.getLast?_eq_getLast]
    rw [hget] at hlast
    have hcut : cutoff ≤ ((t :: ts).getLast (List.cons_ne_nil t ts)).created_at := by
      simpa [Option.all] using hlast
    have hnotlt : ¬ ((t :: ts).getLast (List.cons_ne_nil t ts)).created_at < cutoff := by
      omega
    simp only [List.map_cons, List.cons_append]
    rw [fetchLoop_cons_cont cutoff t ts _ hnotlt]
    rw [ih (fun q hq => h q (List.mem_cons_of_mem _ hq))]
    cases hr : fetchLoop cutoff rest with
    | error e => simp
    | ok pr =>
      obtain ⟨more, k⟩ := pr
      simp [List.append_assoc, Nat.add_assoc]

/-- C8: the summary computation is a deterministic pure function of the
snapshot it is given — the embedding of `generateWrapped`'s statistics
block performs no I/O and reads no ambient state, so two runs on the same
unchanged snapshot are literally the same value, hence bitwise-identical. -/
theorem c8_summary_deterministic :
    ∀ allToots : List Toot, generateWrappedStats allToots = generateWrappedStats allToots :=
  fun _ => rfl

/-- C9: during a run with any number of progress-reporting pages, the
reported progress sequence (0 at start, `min 95 (page * 10)` per page, 100
on successful completion) is monotonically non-decreasing and never
exceeds 100; the per-page proxy is capped at 95, i.e. below 100, until
completion. -/
theorem c9_progress_monotone_capped :
    ∀ (n : Nat) (success : Bool),
      (importProgressTrace n success).Pairwise (· ≤ ·) ∧
      (∀ x ∈ importProgressTrace n success, x ≤ 100) ∧
      (∀ i ∈ List.range n, min 95 ((i + 1) * 10) ≤ 95) := by
  intro n success
  refine ⟨?_, ?_, ?_⟩
  · unfold importProgressTrace
    refine List.pairwise_cons.mpr ⟨fun x _ => Nat.zero_le x, ?_⟩
    refine List.pairwise_append.mpr ⟨?_, ?_, ?_⟩
    · refine List.pairwise_map.mpr ?_
      exact (List.sorted_lt_range n).imp (fun hij => by omega)
    · cases success <;> simp
    · intro a ha b hb
      obtain ⟨i, _, rfl⟩ := List.mem_map.mp ha
      have hb100 : b = 100 := by
        cases success
        · simp at hb
        · simpa using hb
      omega
  · intro x hx
    unfold importProgressTrace at hx
    simp only [List.mem_cons, List.mem_append, List.mem_map] at hx
    rcases hx with rfl | ⟨⟨i, _, rfl⟩ | hx⟩
    · omega
    · omega
    · cases success
      · simp at hx
      · simp at hx
        omega
  · intro i _
    omega

/-- Closed witness for C9 at a concrete 12-page successful run: the trace
is monotone and the concrete value 95 that occurs in it is at most 100. -/
theorem c9_witness :
    (importProgressTrace 12 true).Pairwise (· ≤ ·) ∧ (95 : Nat) ≤ 100 ∧
      min 95 ((3 + 1) * 10) ≤ 95 :=
  ⟨(c9_progress_monotone_capped 12 true).1,
   (c9_progress_monotone_capped 12 true).2.1 95 (by decide),
   (c9_progress_monotone_capped 12 true).2.2 3 (by decide)⟩

/-- C10: on a non-empty filtered set all of whose toots strip to empty
text, the running minimum of `shortestToot` is never replaced (every
length fails the `length > 0` guard), so the field keeps its `Infinity`
initial value (modelled `none`) — it is neither 0 nor an error. -/
theorem c10_all_empty_shortest_infinity :
    ∀ allToots : List Toot, filterToots allToots ≠ [] →
      (∀ t ∈ filterToots allToots, (tootText t.content).length = 0) →
      (generateWrappedStats allToots).shortestToot = none := by
  intro allToots hne hall
  have hzero : ∀ l ∈ tootLengths (filterToots allToots), l = 0 := by
    intro l hl
    obtain ⟨t, ht, rfl⟩ := List.mem_map.mp hl
    exact hall t ht
  simp only [generateWrappedStats]
  exact foldl_updShortest_none hzero

/-- Closed witness for C10: a single toot whose body `"<p></p>"` strips to
the empty text leaves `shortestToot` at `Infinity`. -/
theorem c10_witness :
    (generateWrappedStats [emptyTextToot]).shortestToot = none :=
  c10_all_empty_shortest_infinity [emptyTextToot] (by decide) (by decide)

/-- C1 (amended): on an input whose non-boost filter is empty — an
all-boosted collection or the empty collection — the summary computation
does not fail at all: it returns a summary record with `totalToots = 0`
whose `avgLength`, `avgWords` and `medianLength` are `NaN` (`0/0` and
out-of-range indexing, modelled `none`), whose four time-of-day
percentages are `NaN`, and whose `longestStreak` is 1. -/
theorem c1_empty_input_yields_nan_summary :
    ∀ allToots : List Toot, filterToots allToots = [] →
      (generateWrappedStats allToots).totalToots = 0 ∧
      (generateWrappedStats allToots).avgLength = none ∧
      (generateWrappedStats allToots).avgWords = none ∧
      (generateWrappedStats allToots).medianLength = none ∧
      (generateWrappedStats allToots).timeDistribution = ⟨none, none, none, none⟩ ∧
      (generateWrappedStats allToots).longestStreak = 1 := by
  intro allToots h
  simp only [generateWrappedStats, h, tootLengths, filterCutoff, List.map_nil,
    List.length_nil, List.foldl_nil, List.countP_nil]
  decide

/-- C1 counterexample: on the all-boosted collection `[boostToot]` and on
the empty collection, the computation produces a complete summary record
(with NaN-valued fields) instead of failing with an `EmptyInputError` —
there is no empty-input guard anywhere in `generateWrapped`. -/
theorem c1_counterexample :
    generateWrappedStats [boostToot] =
      { totalToots := 0, totalRetoots := 1, avgLength := none, withMedia := 0,
        topHashtags := [], replies := 0, mostActiveHour := 12,
        mostActiveDay := "Montag", longestStreak := 1, longestToot := 0,
        shortestToot := none, medianLength := none, totalWords := 0,
        avgWords := none, timeDistribution := ⟨none, none, none, none⟩,
        totalLinks := 0, totalMentions := 0, boosts := 0, privateToots := 0,
        mostActiveMonth := ("Januar", 0), totalFavorites := 0,
        totalReblogs := 0 } ∧
    generateWrappedStats [] =
      { totalToots := 0, totalRetoots := 0, avgLength := none, withMedia := 0,
        topHashtags := [], replies := 0, mostActiveHour := 12,
        mostActiveDay := "Montag", longestStreak := 1, longestToot := 0,
        shortestToot := none, medianLength := none, totalWords := 0,
        avgWords := none, timeDistribution := ⟨none, none, none, none⟩,
        totalLinks := 0, totalMentions := 0, boosts := 0, privateToots := 0,
        mostActiveMonth := ("Januar", 0), totalFavorites := 0,
        totalReblogs := 0 } := by
  constructor <;> decide

/-- Closed witness for C1 at the concrete all-boosted input `[boostToot]`. -/
theorem c1_witness :
    (generateWrappedStats [boostToot]).totalToots = 0 ∧
    (generateWrappedStats [boostToot]).avgLength = none ∧
    (generateWrappedStats [boostToot]).avgWords = none ∧
    (generateWrappedStats [boostToot]).medianLength = none ∧
    (generateWrappedStats [boostToot]).timeDistribution = ⟨none, none, none, none⟩ ∧
    (generateWrappedStats [boostToot]).longestStreak = 1 :=
  c1_empty_input_yields_nan_summary [boostToot] (by decide)

/-- C3: the source sorts the `toDateString()` texts of the post days
lexicographically (comparator-less `Array.prototype.sort` on strings, src/
main.js line 571), not chronologically.  For the two consecutive days
Sunday 2024-01-07 and Monday 2024-01-08 the sorted order is
`["Mon Jan 08 2024", "Sun Jan 07 2024"]`, the scanned day difference is
−1, and the computed streak is 1, while the streak over the
ascending-sorted distinct calendar dates — what the claim describes — is
2.  The claim's own examples do hold on the code (a single day gives 1,
and Jan 1/2/3/5 of 2024 happen to give 3 even under the lexicographic
order), but the general statement fails. -/
theorem c3_streak_lexicographic_divergence :
    (generateWrappedStats [tootSun, tootMon]).longestStreak = 1 ∧
    longestStreakSpec [msToDay tootSun.created_at, msToDay tootMon.created_at] = 2 ∧
    (generateWrappedStats [mkToot "d1" "x" (19723 * 86400000),
        mkToot "d2" "x" (19724 * 86400000), mkToot "d3" "x" (19725 * 86400000),
        mkToot "d4" "x" (19727 * 86400000)]).longestStreak = 3 ∧
    (generateWrappedStats [mkToot "d5" "x" (19723 * 86400000)]).longestStreak = 1 := by
  refine ⟨?_, ?_, ?_, ?_⟩ <;> decide

/-- C2: pagination stops at the first empty page, or at the first page
whose oldest (last) post is strictly older than the cutoff.  If the pages
before the terminal one are non-empty with an oldest post at or after the
cutoff, then: with a terminal page whose oldest post is older than the
cutoff, exactly `pages.length + 1` pages are fetched, the qualifying
(`createdAt >= cutoff`) posts of the terminal page are still included, and
the rest of the feed is never consulted; with an empty terminal page,
exactly `pages.length + 1` pages are fetched and nothing of the terminal
page or beyond is imported. -/
theorem c2_pagination_termination :
    (∀ (cutoff : Nat) (pages : List (List Toot)) (lastPage : List Toot)
        (restFeed : List (Option (List Toot))),
      (∀ p ∈ pages, pageOk cutoff p) → lastPage ≠ [] →
      lastPage.getLast?.all (fun t => Nat.blt t.created_at cutoff) = true →
      fetchLoop cutoff (pages.map some ++ some lastPage :: restFeed) =
        .ok ((pages.map (filterCutoff cutoff)).flatten ++ filterCutoff cutoff lastPage,
          pages.length + 1)) ∧
    (∀ (cutoff : Nat) (pages : List (List Toot)) (restFeed : List (Option (List Toot))),
      (∀ p ∈ pages, pageOk cutoff p) →
      fetchLoop cutoff (pages.map some ++ some [] :: restFeed) =
        .ok ((pages.map (filterCutoff cutoff)).flatten, pages.length + 1)) := by
  constructor
  · intro cutoff pages lastPage restFeed hp hne hold
    obtain ⟨t, ts, rfl⟩ := List.exists_cons_of_ne_nil hne
    rw [List.getLast?_eq_getLast (t :: ts) (List.cons_ne_nil t ts)] at hold
    have hlt : ((t :: ts).getLast (List.cons_ne_nil t ts)).created_at < cutoff := by
      simpa [Option.all, Nat.blt_eq] using hold
    have hterm : fetchLoop cutoff (some (t :: ts) :: restFeed)
        = .ok (filterCutoff cutoff (t :: ts), 1) := by
      conv_lhs => rw [fetchLoop]
      rw [if_pos hlt]
    rw [fetchLoop_go cutoff pages _ hp, hterm]
    simp [Nat.add_comm]
  · intro cutoff pages restFeed hp
    have hterm : fetchLoop cutoff (some [] :: restFeed) = .ok ([], 1) := rfl
    rw [fetchLoop_go cutoff pages _ hp, hterm]
    simp [Nat.add_comm]

/-- Closed witness for C2: the spec's own 3-page scenario.  Pages 1 and 2
lie inside the window, page 3 has one qualifying post and an oldest post
before the cutoff: exactly 3 pages are fetched, only the qualifying post of
page 3 is imported, and the fourth page is never consulted. -/
theorem c2_witness :
    fetchLoop 100 [some demoPage1, some demoPage2, some demoPage3, some demoPage4] =
      .ok (demoPage1 ++ demoPage2 ++ [feedToot "p5" 110], 3) := by
  have h := c2_pagination_termination.1 100 [demoPage1, demoPage2] demoPage3
    [some demoPage4] (by decide) (by decide) (by decide)
  exact h.trans (by rfl)

/-- C4: if any page fetch of a run fails (a `none` response anywhere after
a prefix of non-terminal pages), the whole run surfaces the fetch error
and the store is returned exactly as it was — no post fetched during the
run is persisted, because the persistence batch only runs after the whole
pagination loop has succeeded. -/
theorem c4_failed_fetch_leaves_store_unchanged :
    ∀ (store : List Toot) (cutoff : Nat) (pages : List (List Toot))
      (restFeed : List (Option (List Toot))),
      (∀ p ∈ pages, pageOk cutoff p) →
      runImport store cutoff (pages.map some ++ none :: restFeed)
        = (store, some "Fehler beim Abrufen der Toots") := by
  intro store cutoff pages restFeed hp
  have herr : fetchLoop cutoff (pages.map some ++ none :: restFeed)
      = .error "Fehler beim Abrufen der Toots" := by
    rw [fetchLoop_go cutoff pages _ hp]
    rfl
  unfold runImport
  rw [herr]

/-- Closed witness for C4: a run whose second page fetch fails leaves the
pre-existing store untouched even though page 1 had already been fetched. -/
theorem c4_witness :
    runImport [feedToot "old" 500] 100 [some demoPage1, none, some demoPage3]
      = ([feedToot "old" 500], some "Fehler beim Abrufen der Toots") :=
  c4_failed_fetch_leaves_store_unchanged [feedToot "old" 500] 100 [demoPage1]
    [some demoPage3] (by decide)

theorem median_code_eq_spec (ls : List Nat) (h : ls ≠ []) :
    (if (stableSortBy Nat.ble ls).length % 2 = 0 then
      match (stableSortBy Nat.ble ls).get? ((stableSortBy Nat.ble ls).length / 2 - 1),
        (stableSortBy Nat.ble ls).get? ((stableSortBy Nat.ble ls).length / 2) with
      | some a, some b => some ((a + b + 1) / 2)
      | _, _ => none
    else (stableSortBy Nat.ble ls).get? ((stableSortBy Nat.ble ls).length / 2))
    = some (medianSpec ls) := by
  unfold medianSpec
  set s := stableSortBy Nat.ble ls with hs
  have hlen : s.length = ls.length := length_stableSortBy _ _
  have hpos : 0 < s.length := by
    rw [hlen]
    exact List.length_pos.mpr h
  by_cases hpar : s.length % 2 = 0
  · have h2 : 2 ≤ s.length := by omega
    have hm1 : s.length / 2 - 1 < s.length := by omega
    have hm : s.length / 2 < s.length := by omega
    rw [if_pos hpar, if_pos hpar]
    rw [List.get?_eq_getElem?, List.get?_eq_getElem?,
      List.getElem?_eq_getElem hm1, List.getElem?_eq_getElem hm]
    rw [List.getD_eq_getElem?_getD, List.getD_eq_getElem?_getD,
      List.getElem?_eq_getElem hm1, List.getElem?_eq_getElem hm]
    rfl
  · have hm : s.length / 2 < s.length := by omega
    rw [if_neg hpar, if_neg hpar]
    rw [List.get?_eq_getElem?, List.getElem?_eq_getElem hm]
    rw [List.getD_eq_getElem?_getD, List.getElem?_eq_getElem hm]
    rfl

/-- C5: on every non-empty filtered set, `medianLength` is exactly the
claim's description — the sorted stripped-text lengths' middle value for
an odd count, the half-up-rounded average of the two middle values for an
even count (here `medianSpec`, written from the claim) — and in particular
lengths [1,2,3] give 2 and lengths [1,2,3,4] give 3. -/
theorem c5_median_matches_spec :
    (∀ allToots : List Toot, filterToots allToots ≠ [] →
      (generateWrappedStats allToots).medianLength
        = some (medianSpec (tootLengths (filterToots allToots)))) ∧
    (generateWrappedStats demoMedian3).medianLength = some 2 ∧
    (generateWrappedStats demoMedian4).medianLength = some 3 := by
  refine ⟨?_, by decide, by decide⟩
  intro allToots hne
  have hls : tootLengths (filterToots allToots) ≠ [] := by
    simp only [tootLengths, ne_eq, List.map_eq_nil_iff]
    exact hne
  simp only [generateWrappedStats]
  exact median_code_eq_spec _ hls

/-- Closed witness for C5 at the concrete three-length input. -/
theorem c5_witness :
    (generateWrappedStats demoMedian3).medianLength
      = some (medianSpec (tootLengths (filterToots demoMedian3))) :=
  c5_median_matches_spec.1 demoMedian3 (by decide)

/-- C6 (amended): hashtags are `#` plus word characters, case-folded to
lowercase; the top-5 list is the first five entries of the frequency map,
stably sorted by count descending, so it is count-sorted and at most five
long, and ties between tags keep the enumeration order of the underlying
JavaScript object: insertion (first-seen) order for ordinary tags, but
tags whose text is a canonical array index are enumerated first in
ascending numeric order.  `#a #a #b` ranks `a` (count 2) before `b`
(count 1), and `#Foo`/`#foo` fold to one tag `foo` with count 2. -/
theorem c6_top_hashtags :
    (∀ allToots : List Toot,
      ((generateWrappedStats allToots).topHashtags).Pairwise
        (fun a b => b.2 ≤ a.2) ∧
      (generateWrappedStats allToots).topHashtags.length ≤ 5) ∧
    (generateWrappedStats [tootAAB]).topHashtags = [("a", 2), ("b", 1)] ∧
    (generateWrappedStats [tootFooCase]).topHashtags = [("foo", 2)] := by
  refine ⟨?_, by decide, by decide⟩
  intro allToots
  have htot : ∀ a b : String × Nat,
      leCountDesc a b = true ∨ leCountDesc b a = true := by
    intro a b
    simp only [leCountDesc, Nat.ble_eq]
    omega
  have htrans : ∀ a b c : String × Nat, leCountDesc a b = true →
      leCountDesc b c = true → leCountDesc a c = true := by
    intro a b c
    simp only [leCountDesc, Nat.ble_eq]
    omega
  constructor
  · simp only [generateWrappedStats]
    have hp := pairwise_stableSortBy leCountDesc htot htrans
      (objEntries (List.foldl
        (fun m t => (extractHashtags (tootText t.content)).foldl bumpCount m) []
        (filterToots allToots)))
    have hp2 := hp.imp (fun hab => by
      simpa only [leCountDesc, Nat.ble_eq] using hab)
    exact List.Pairwise.sublist (List.take_sublist 5 _) hp2
  · simp only [generateWrappedStats]
    exact List.length_take_le 5 _

/-- C6 counterexample: in a post containing `#b #9`, the first-seen tag is
`b`, but `Object.entries` enumerates the array-index key `"9"` first, and
the stable count sort keeps it there: the computed ranking is
`[("9", 1), ("b", 1)]`, not the first-seen order `[("b", 1), ("9", 1)]`
the claim requires for ties. -/
theorem c6_counterexample :
    (generateWrappedStats [tootB9]).topHashtags = [("9", 1), ("b", 1)] ∧
    (generateWrappedStats [tootB9]).topHashtags ≠ [("b", 1), ("9", 1)] := by
  constructor <;> decide

/-- C7 (amended): the if/else chain assigns every post's hour to exactly
one band, so the four raw band counts always partition the filtered set;
on a non-empty filtered set the four independently half-up-rounded
percentages sum to a value between 99 and 102 — each rounding error lies
in (−1/2, 1/2], so the sum of four lies in (98, 102], and 102 is attained
(see the counterexample), so the claim's ±1 window must widen to −1/+2. -/
theorem c7_band_percentages :
    ∀ allToots : List Toot,
      (bandCount .morning (filterToots allToots)
        + bandCount .afternoon (filterToots allToots)
        + bandCount .evening (filterToots allToots)
        + bandCount .night (filterToots allToots)
        = (filterToots allToots).length) ∧
      (filterToots allToots ≠ [] →
        99 ≤ (generateWrappedStats allToots).timeDistribution.morning.getD 0
            + (generateWrappedStats allToots).timeDistribution.afternoon.getD 0
            + (generateWrappedStats allToots).timeDistribution.evening.getD 0
            + (generateWrappedStats allToots).timeDistribution.night.getD 0 ∧
          (generateWrappedStats allToots).timeDistribution.morning.getD 0
            + (generateWrappedStats allToots).timeDistribution.afternoon.getD 0
            + (generateWrappedStats allToots).timeDistribution.evening.getD 0
            + (generateWrappedStats allToots).timeDistribution.night.getD 0 ≤ 102) := by
  intro allToots
  refine ⟨bandCount_partition _, ?_⟩
  intro hne
  have ht : 0 < (filterToots allToots).length := List.length_pos.mpr hne
  have htne : ¬ ((filterToots allToots).length = 0) := by omega
  simp only [generateWrappedStats, if_neg htne, Option.getD_some]
  exact pctSum_bounds _ _ _ _ _ ht (bandCount_partition _)

/-- Closed witness for C7 at the concrete 8-post input with band counts
(1, 1, 1, 5). -/
theorem c7_witness :
    99 ≤ (generateWrappedStats demoBands).timeDistribution.morning.getD 0
        + (generateWrappedStats demoBands).timeDistribution.afternoon.getD 0
        + (generateWrappedStats demoBands).timeDistribution.evening.getD 0
        + (generateWrappedStats demoBands).timeDistribution.night.getD 0 ∧
      (generateWrappedStats demoBands).timeDistribution.morning.getD 0
        + (generateWrappedStats demoBands).timeDistribution.afternoon.getD 0
        + (generateWrappedStats demoBands).timeDistribution.evening.getD 0
        + (generateWrappedStats demoBands).timeDistribution.night.getD 0 ≤ 102 :=
  (c7_band_percentages demoBands).2 (by decide)

/-- C7 counterexample: eight posts, one per daytime band and five at
night, give rounded percentages 13 + 13 + 13 + 63 = 102, which is outside
the claimed 100 ± 1 window (and all four ratios are dyadic, so the float
computation of the source rounds identically). -/
theorem c7_counterexample :
    (generateWrappedStats demoBands).timeDistribution.morning.getD 0
      + (generateWrappedStats demoBands).timeDistribution.afternoon.getD 0
      + (generateWrappedStats demoBands).timeDistribution.evening.getD 0
      + (generateWrappedStats demoBands).timeDistribution.night.getD 0 = 102 ∧
    ¬ (99 ≤ (generateWrappedStats demoBands).timeDistribution.morning.getD 0
          + (generateWrappedStats demoBands).timeDistribution.afternoon.getD 0
          + (generateWrappedStats demoBands).timeDistribution.evening.getD 0
          + (generateWrappedStats demoBands).timeDistribution.night.getD 0 ∧
        (generateWrappedStats demoBands).timeDistribution.morning.getD 0
          + (generateWrappedStats demoBands).timeDistribution.afternoon.getD 0
          + (generateWrappedStats demoBands).timeDistribution.evening.getD 0
          + (generateWrappedStats demoBands).timeDistribution.night.getD 0 ≤ 101) := by
  constructor <;> decide
